import Mathlib

/-!
# Verification of the `loom` filesystem-routed HTTP dispatcher

A shallow embedding of `src/server.ts` (and the parts of `src/handler.ts`
it relies on). Filesystem and module-loading effects are modelled by an
explicit environment of oracles keyed by path strings; the dispatcher
itself is translated as pure functions over that environment, mirroring
the control flow of the TypeScript source. The open-file-handle
bookkeeping of the static file server is made explicit as a trace of
handle operations (the synchronous ones performed before the response is
returned, and the deferred ones performed by the body stream callbacks
when the stream terminates).
-/

namespace Loom

/-! ## Strings and path arithmetic (`getHandlerModulePath` and friends) -/

/-- ASCII lowercasing of one character (the fragment of the JavaScript
`toLowerCase` relevant to method names and paths). -/
def lowerChar (c : Char) : Char :=
  if 65 <= c.toNat && c.toNat <= 90 then Char.ofNat (c.toNat + 32) else c

/-- The JavaScript `toLowerCase` builtin (ASCII fragment). -/
def toLowerStr (s : String) : String := String.mk (s.toList.map lowerChar)

/-- ASCII uppercasing of one character. -/
def upperChar (c : Char) : Char :=
  if 97 <= c.toNat && c.toNat <= 122 then Char.ofNat (c.toNat - 32) else c

/-- The JavaScript `toUpperCase` builtin (ASCII fragment). -/
def toUpperStr (s : String) : String := String.mk (s.toList.map upperChar)

/-- The JavaScript `String.prototype.endsWith` builtin. -/
def strEndsWith (s suffix : String) : Bool := suffix.toList.isSuffixOf s.toList

/-- UTF-8 encoding of one character. -/
def utf8Bytes (c : Char) : List UInt8 :=
  let n := c.toNat
  if n < 128 then [UInt8.ofNat n]
  else if n < 2048 then [UInt8.ofNat (192 + n / 64), UInt8.ofNat (128 + n % 64)]
  else if n < 65536 then
    [UInt8.ofNat (224 + n / 4096), UInt8.ofNat (128 + (n / 64) % 64), UInt8.ofNat (128 + n % 64)]
  else
    [UInt8.ofNat (240 + n / 262144), UInt8.ofNat (128 + (n / 4096) % 64),
      UInt8.ofNat (128 + (n / 64) % 64), UInt8.ofNat (128 + n % 64)]

/-- UTF-8 encoding of a string. -/
def stringUTF8 (s : String) : List UInt8 := (s.toList.map utf8Bytes).flatten

/-- A nonempty path starting with a slash (`nodePath.isAbsolute` on
POSIX paths, for the class of paths this server builds). -/
def isAbsolutePath (s : String) : Bool :=
  match s.toList with
  | c :: _ => c == '/'
  | [] => false

/-- One uppercase hexadecimal digit, as used by `encodeURIComponent`. -/
def hexDigitChar (n : Nat) : Char :=
  if n < 10 then Char.ofNat (48 + n) else Char.ofNat (55 + n)

/-- `%XX` percent-encoding of a single byte, uppercase hex. -/
def percentEncodeByte (b : UInt8) : String :=
  String.mk ['%', hexDigitChar (b.toNat / 16), hexDigitChar (b.toNat % 16)]

/-- The characters `encodeURIComponent` leaves unescaped:
letters, digits, hyphen, underscore, dot, bang, tilde, star, apostrophe
and parentheses. -/
def isUnreservedURIChar (c : Char) : Bool :=
  c.isAlpha || c.isDigit ||
    c == '-' || c == '_' || c == '.' || c == '!' || c == '~' ||
    c == '*' || c.toNat == 39 || c == '(' || c == ')'

/-- The JavaScript `encodeURIComponent` builtin: unreserved characters are kept,
every other character is replaced by the percent-encoding of its UTF-8
bytes. -/
def encodeURIComponent (s : String) : String :=
  s.toList.foldl
    (fun acc c =>
      if isUnreservedURIChar c then acc.push c
      else acc ++ String.join ((utf8Bytes c).map percentEncodeByte))
    ""

/-- The request path normalization: decodeURI of the URL pathname with
all leading and trailing slashes stripped. The percent-decoded pathname
is the input of the model. -/
def trimSlashes (s : String) : String :=
  String.mk (((s.toList.dropWhile (fun c => c == '/')).reverse.dropWhile
    (fun c => c == '/')).reverse)

/-! ## Configuration (`ServerConfiguration` with defaults applied,
i.e. `Required<ServerConfiguration>`) -/

structure ServerConfiguration where
  publicDirectory : String
  errorHandler : String
  handlerFilenameSuffix : String
deriving DecidableEq, Repr

/-- `serverConfigurationDefaults` applied over a partial configuration. -/
def serverConfigurationDefaults (publicDirectory : String)
    (errorHandler handlerFilenameSuffix : Option String) : ServerConfiguration :=
  { publicDirectory := publicDirectory
    errorHandler := errorHandler.getD "#error.js"
    handlerFilenameSuffix := handlerFilenameSuffix.getD "#handler.js" }

/-! ## Routable methods -/

/-- `lowercasedRoutableMethods`, in the insertion order of the `Set`. -/
def lowercasedRoutableMethods : List String :=
  ["delete", "get", "patch", "post", "put", "head"]

def methodIsRoutable (method : String) : Bool :=
  lowercasedRoutableMethods.contains (toLowerStr method)

/-! ## Candidate path computation -/

/-- `getHandlerModulePath`: lowercase the method, substitute `head → get`,
and append the URL-encoded handler filename suffix to the static path. -/
def getHandlerModulePath (configuration : ServerConfiguration)
    (method requestPath : String) : String :=
  let lowercaseMethod := toLowerStr method
  let methodAsPathComponent := if lowercaseMethod == "head" then "get" else lowercaseMethod
  configuration.publicDirectory ++ "/" ++ methodAsPathComponent ++ "/" ++
    requestPath ++ encodeURIComponent configuration.handlerFilenameSuffix

/-- `getStaticFilePath`. -/
def getStaticFilePath (configuration : ServerConfiguration)
    (method requestPath : String) : String :=
  let lowercaseMethod := toLowerStr method
  let methodAsPathComponent := if lowercaseMethod == "head" then "get" else lowercaseMethod
  configuration.publicDirectory ++ "/" ++ methodAsPathComponent ++ "/" ++ requestPath

/-- `getErrorModulePath`. -/
def getErrorModulePath (configuration : ServerConfiguration) : String :=
  configuration.publicDirectory ++ "/" ++ encodeURIComponent configuration.errorHandler

/-! ## Requests, response details and responses -/

/-- A web `Request`, reduced to the fields the dispatcher reads. The
`pathname` field is the percent-decoded `new URL(request.url).pathname`
(URL parsing and `decodeURI` happen in the runtime before the dispatcher
logic proper). -/
structure Request where
  method : String
  pathname : String
deriving DecidableEq, Repr

/-- `SuggestedResponseDetails` from `src/handler.ts`: the closed union of
statuses the server ever suggests, with the headers mandated for each
(only 405 carries a header, `allow`). -/
inductive SuggestedResponseDetails where
  | ok
  | badRequest
  | notFound
  | methodNotAllowed (allow : String)
  | notAcceptable
  | internalServerError
  | notImplemented
deriving DecidableEq, Repr

def SuggestedResponseDetails.status : SuggestedResponseDetails → Nat
  | .ok => 200
  | .badRequest => 400
  | .notFound => 404
  | .methodNotAllowed _ => 405
  | .notAcceptable => 406
  | .internalServerError => 500
  | .notImplemented => 501

def SuggestedResponseDetails.headers : SuggestedResponseDetails → List (String × String)
  | .methodNotAllowed allow => [("allow", allow)]
  | _ => []

/-- `Exclude<SuggestedResponseDetails, { status: 200 }>`: the details
`handleError` accepts. -/
inductive ErrorResponseDetails where
  | badRequest
  | notFound
  | methodNotAllowed (allow : String)
  | notAcceptable
  | internalServerError
  | notImplemented
deriving DecidableEq, Repr

def ErrorResponseDetails.toSuggested : ErrorResponseDetails → SuggestedResponseDetails
  | .badRequest => .badRequest
  | .notFound => .notFound
  | .methodNotAllowed allow => .methodNotAllowed allow
  | .notAcceptable => .notAcceptable
  | .internalServerError => .internalServerError
  | .notImplemented => .notImplemented

def ErrorResponseDetails.status (d : ErrorResponseDetails) : Nat :=
  d.toSuggested.status

def ErrorResponseDetails.headers (d : ErrorResponseDetails) : List (String × String) :=
  d.toSuggested.headers

/-- A response body: absent, an in-memory byte body, or the static file
handle-closing byte stream of the static file server (`fileHandleClosingStream` in the
source), recording the streamed file bytes. -/
inductive ResponseBody where
  | empty
  | bytes (b : List UInt8)
  | fileHandleClosingStream (b : List UInt8)
deriving DecidableEq, Repr

/-- A web `Response`, reduced to status, headers and body. -/
structure Response where
  status : Nat
  headers : List (String × String)
  body : ResponseBody
deriving DecidableEq, Repr

/-- `new Response(text, ...)`: a string body is its UTF-8 bytes. -/
def stringBody (s : String) : ResponseBody :=
  .bytes (stringUTF8 s)

/-! ## The effect environment

`import`, `readlink`, `stat` and `open` are modelled as oracles keyed by
the path strings the dispatcher computes. -/

/-- The outcome of `import(path)` followed by the
`isRequestHandlerModule` check. A valid handler is a function from the
request and the suggested response details to a response; `Except Unit`
models the handler itself throwing. -/
inductive ModuleOutcome where
  | notFound      -- rejection with code ERR_MODULE_NOT_FOUND
  | loadError     -- any other load failure
  | invalidModule -- loaded, but not a valid request handler module
  | validHandler (h : Request → SuggestedResponseDetails → Except Unit Response)

/-- The combined outcome of `nodeFS.open(path)` and the subsequent
`stat()` / `stats.isFile()` check on the opened handle. -/
inductive OpenOutcome where
  | openFail               -- nodeFS.open rejected; no handle was created
  | statFail               -- handle opened, stat() rejected
  | notAFile               -- handle opened, stat succeeded, not a regular file
  | file (b : List UInt8)  -- a regular file with these bytes
deriving DecidableEq, Repr

structure Environment where
  importModule : String → ModuleOutcome
  readlink : String → Option String
  /-- `nodeFS.stat(path)` succeeds (for any kind of entry, directories
  included); used by the allowed-methods probe. -/
  statExists : String → Bool
  openStat : String → OpenOutcome
  /-- The external pure `mime.getType` lookup from the file extension of
  the path. -/
  mimeGetType : String → Option String

/-! ## Error fallback chain (`handleError`) -/

/-- The status switch of the `handleError` fallback: total over the
closed non-200 status set. -/
def errorMessage : ErrorResponseDetails → String
  | .badRequest => "Bad Request"
  | .notFound => "Not Found"
  | .methodNotAllowed _ => "Method Not Allowed"
  | .notAcceptable => "Not Acceptable"
  | .internalServerError => "Internal Server Error"
  | .notImplemented => "Not Implemented"

/-- The plain-text response `handleError` falls back to: the requested
status, the requested headers with content-type text/plain appended, and
the canonical phrase as the body. -/
def plainTextFallback (responseDetails : ErrorResponseDetails) : Response :=
  { status := responseDetails.status
    headers := responseDetails.headers ++ [("content-type", "text/plain")]
    body := stringBody (errorMessage responseDetails) }

/-- `handleError`: import the configured error module, invoke it if it is
a valid handler, and fall back to the plain-text response if the import,
the validity check, or the handler invocation fails. -/
def handleError (env : Environment) (configuration : ServerConfiguration)
    (originalRequest : Request) (responseDetails : ErrorResponseDetails) : Response :=
  match env.importModule (getErrorModulePath configuration) with
  | .validHandler h =>
    match h originalRequest responseDetails.toSuggested with
    | .ok response => response
    | .error _ => plainTextFallback responseDetails
  | _ => plainTextFallback responseDetails

/-! ## Dynamic handler invocation -/

/-- `handleRequestDynamicallyOrReject`: import the handler module for the
method and path of the request; reject unless it is a valid handler module
that returns a response. -/
def handleRequestDynamicallyOrReject (env : Environment)
    (configuration : ServerConfiguration) (request : Request)
    (requestPath : String) (responseDetails : SuggestedResponseDetails) :
    Except Unit Response :=
  match env.importModule (getHandlerModulePath configuration request.method requestPath) with
  | .validHandler h => h request responseDetails
  | _ => .error ()

/-! ## Static file serving with explicit handle bookkeeping -/

/-- An operation on the open handle of the static file. -/
inductive HandleOp where
  | openH
  | closeH
deriving DecidableEq, Repr

def openCount (ops : List HandleOp) : Nat :=
  ops.countP (fun op => op == .openH)

def closeCount (ops : List HandleOp) : Nat :=
  ops.countP (fun op => op == .closeH)

/-- How the handle-closing response body stream terminates: the read loop
in `start` reaches `done`, the read loop throws, or the consumer cancels
the stream. -/
inductive StreamEvent where
  | completed
  | errored
  | cancelled
deriving DecidableEq, Repr

/-- The handle operations the `fileHandleClosingStream` callbacks perform
at each terminal event: the `start` read loop closes the handle in its
`finally` block on both completion and error, and the `cancel` callback
cancels the inner file stream and then closes the handle. -/
def fileHandleClosingStreamOps : StreamEvent → List HandleOp
  | .completed => [.closeH]
  | .errored => [.closeH]
  | .cancelled => [.closeH]

/-- `readlink` resolution: if the static candidate is a symlink, follow
one hop, re-joining a relative target against the public directory;
otherwise keep the candidate unchanged. MIME types are derived from the
result. -/
def resolveStaticFilePath (env : Environment) (configuration : ServerConfiguration)
    (method requestPath : String) : String :=
  let staticFilePath := getStaticFilePath configuration method requestPath
  match env.readlink staticFilePath with
  | some target =>
    if isAbsolutePath target then target
    else configuration.publicDirectory ++ "/" ++ target
  | none => staticFilePath

/-- The cache-control and content-type header object built for a
successful static response: cache-control max-age=31536000 always, plus
content-type exactly when a MIME type was derived. -/
def staticSuccessHeaders (mimeType : Option String) : List (String × String) :=
  ("cache-control", "max-age=31536000") ::
    (match mimeType with
     | some t => [("content-type", t)]
     | none => [])

/-- The allowed-methods probe in the catch block of
`handleRequestForStaticFile`: for each lowercased routable method, `stat` the handler module
candidate and, if that fails, the static candidate; keep the method if
either succeeded. -/
def allowedMethods (env : Environment) (configuration : ServerConfiguration)
    (requestPath : String) : List String :=
  lowercasedRoutableMethods.filter (fun method =>
    env.statExists (getHandlerModulePath configuration method requestPath) ||
      env.statExists (getStaticFilePath configuration method requestPath))

/-- The `allow` header value: uppercased methods joined by comma-space. -/
def allowHeaderValue (methods : List String) : String :=
  String.intercalate ", " (methods.map toUpperStr)

/-- The 404/405 disambiguation at the end of the catch block of
`handleRequestForStaticFile`. -/
def staticMissResponse (env : Environment) (configuration : ServerConfiguration)
    (request : Request) (requestPath : String) : Response :=
  let allowed := allowedMethods env configuration requestPath
  if allowed.length > 0 then
    handleError env configuration request (.methodNotAllowed (allowHeaderValue allowed))
  else
    handleError env configuration request .notFound

/-- The result of the static file server: the response, the handle
operations performed before returning, and the handle operations the
response body stream will perform at its terminal event (none unless
the success byte stream was constructed). -/
structure StaticServeOutcome where
  response : Response
  syncHandleOps : List HandleOp
  deferredHandleOps : StreamEvent → List HandleOp

/-- `handleRequestForStaticFile`: the handler-suffix / error-path guard
clauses, symlink resolution, MIME lookup, open + stat, HEAD handling
(handle closed immediately after stat, empty body), the handle-closing
success stream, and the catch block (close any opened handle, then the
allowed-methods probe and the 404/405 error chain). -/
def handleRequestForStaticFile (env : Environment)
    (configuration : ServerConfiguration) (request : Request)
    (requestPath : String) : StaticServeOutcome :=
  if strEndsWith requestPath configuration.handlerFilenameSuffix then
    { response := handleError env configuration request .notFound
      syncHandleOps := []
      deferredHandleOps := fun _ => [] }
  else if requestPath == configuration.errorHandler then
    { response := handleError env configuration request .notFound
      syncHandleOps := []
      deferredHandleOps := fun _ => [] }
  else
    let staticFilePath := resolveStaticFilePath env configuration request.method requestPath
    let mimeType := env.mimeGetType staticFilePath
    match env.openStat staticFilePath with
    | .openFail =>
      -- `staticFile` is still `undefined`: `staticFile?.close()` is a no-op.
      { response := staticMissResponse env configuration request requestPath
        syncHandleOps := []
        deferredHandleOps := fun _ => [] }
    | .statFail =>
      { response := staticMissResponse env configuration request requestPath
        syncHandleOps := [.openH, .closeH]
        deferredHandleOps := fun _ => [] }
    | .notAFile =>
      { response := staticMissResponse env configuration request requestPath
        syncHandleOps := [.openH, .closeH]
        deferredHandleOps := fun _ => [] }
    | .file b =>
      if request.method == "HEAD" then
        { response :=
            { status := 200
              headers := staticSuccessHeaders mimeType
              body := .empty }
          syncHandleOps := [.openH, .closeH]
          deferredHandleOps := fun _ => [] }
      else
        { response :=
            { status := 200
              headers := staticSuccessHeaders mimeType
              body := .fileHandleClosingStream b }
          syncHandleOps := [.openH]
          deferredHandleOps := fileHandleClosingStreamOps }

/-! ## The request dispatcher (`createRequestHandler`) -/

/-- `createRequestHandler` applied to a request: 501 for unroutable
methods, then the dynamic handler, then the static file fallback. -/
def createRequestHandler (env : Environment)
    (configuration : ServerConfiguration) (request : Request) : Response :=
  if !methodIsRoutable request.method then
    handleError env configuration request .notImplemented
  else
    let requestPath := trimSlashes request.pathname
    match handleRequestDynamicallyOrReject env configuration request requestPath .ok with
    | .ok response => response
    | .error _ =>
      (handleRequestForStaticFile env configuration request requestPath).response

/-! ## Server lifecycle (the `listen` / `close` wiring of `createServer`)

The returned promises are modelled by the settlement state they reach for
each outcome of the underlying `node:http` server operation. -/

inductive PromiseState where
  | pending
  | resolved
  | rejected
deriving DecidableEq, Repr

/-- Outcomes of `server.listen({ port }, callback)`: the server starts
listening (the callback fires), or the port is unavailable (the server
emits an `error` event and the callback never fires). -/
inductive ListenOutcome where
  | listening
  | portUnavailable
deriving DecidableEq, Repr

/-- The settlement of the promise returned by `listen`. The promise
executor binds no rejection and registers no error-event listener,
so only the listening callback ever settles the promise. -/
def listenPromiseState : ListenOutcome → PromiseState
  | .listening => .resolved
  | .portUnavailable => .pending

/-- The settlement of the promise returned by `close`, as a function of
the argument the runtime passes to the close callback: undefined on
success (resolve), an error such as ERR_SERVER_NOT_RUNNING when the
server was not listening (reject). -/
def closePromiseState : Option String → PromiseState
  | none => .resolved
  | some _ => .rejected

/-! ## Concrete fixtures used by witnesses and counterexamples -/

/-- The default configuration rooted at `/pub`. -/
def configDefault : ServerConfiguration :=
  { publicDirectory := "/pub"
    errorHandler := "#error.js"
    handlerFilenameSuffix := "#handler.js" }

/-- An environment where nothing exists: no modules, no links, no files. -/
def envNoModules : Environment :=
  { importModule := fun _ => .notFound
    readlink := fun _ => none
    statExists := fun _ => false
    openStat := fun _ => .openFail
    mimeGetType := fun _ => none }

/-- An environment with no modules but where every `stat` succeeds. -/
def envStaticAll : Environment :=
  { importModule := fun _ => .notFound
    readlink := fun _ => none
    statExists := fun _ => true
    openStat := fun _ => .openFail
    mimeGetType := fun _ => none }

/-- The closed status set of `SuggestedResponseDetails`. -/
def closedStatusSet : List Nat := [200, 400, 404, 405, 406, 500, 501]

/-- The bytes of the style.css fixture. -/
def cssBytes : List UInt8 := stringUTF8 "html - 12by"

/-- An environment with a single regular file at /pub/get/style.css and
no modules. -/
def envStyleCss : Environment :=
  { importModule := fun _ => .notFound
    readlink := fun _ => none
    statExists := fun p => p == "/pub/get/style.css"
    openStat := fun p => if p == "/pub/get/style.css" then .file cssBytes else .openFail
    mimeGetType := fun p => if p == "/pub/get/style.css" then some "text/css" else none }

/-! ## Theorems -/

/-- C7: for every configuration and request, the handler-module candidate
is the public directory, the lowercased method (with head replaced by
get), the routing key and the URL-encoded handler suffix joined by
slashes; the static candidate is the same without the suffix; HEAD is
never a distinct directory; and the error-handler path is URL-encoded in
the error-module path. The computation is given by pure functions of
strings: it performs no I/O. -/
theorem candidate_path_computation (cfg : ServerConfiguration) (m rp : String) :
    getHandlerModulePath cfg m rp =
      cfg.publicDirectory ++ "/" ++
        (if toLowerStr m == "head" then "get" else toLowerStr m) ++ "/" ++
        rp ++ encodeURIComponent cfg.handlerFilenameSuffix ∧
    getStaticFilePath cfg m rp =
      cfg.publicDirectory ++ "/" ++
        (if toLowerStr m == "head" then "get" else toLowerStr m) ++ "/" ++ rp ∧
    getHandlerModulePath cfg "HEAD" rp = getHandlerModulePath cfg "GET" rp ∧
    getStaticFilePath cfg "HEAD" rp = getStaticFilePath cfg "GET" rp ∧
    getErrorModulePath cfg =
      cfg.publicDirectory ++ "/" ++ encodeURIComponent cfg.errorHandler ∧
    encodeURIComponent "#handler.js" = "%23handler.js" ∧
    encodeURIComponent "#error.js" = "%23error.js" := by
  refine ⟨rfl, rfl, ?_, ?_, rfl, by decide, by decide⟩
  · show getHandlerModulePath cfg "HEAD" rp = getHandlerModulePath cfg "GET" rp
    have h1 : toLowerStr "HEAD" = "head" := by decide
    have h2 : toLowerStr "GET" = "get" := by decide
    simp [getHandlerModulePath, h1, h2]
  · have h1 : toLowerStr "HEAD" = "head" := by decide
    have h2 : toLowerStr "GET" = "get" := by decide
    simp [getStaticFilePath, h1, h2]

/-- C9: the promise returned by `listen` cannot reject when the port is
unavailable — the executor only wires the listening callback to
`resolve`, so the promise stays pending forever (while the documentation
and the spec say it rejects). The promise returned by `close` does reject
when the server was not listening and resolves when all connections have
ended. -/
theorem listen_promise_never_rejects :
    listenPromiseState .portUnavailable = .pending ∧
    listenPromiseState .portUnavailable ≠ .rejected ∧
    listenPromiseState .listening = .resolved ∧
    closePromiseState (some "ERR_SERVER_NOT_RUNNING") = .rejected ∧
    closePromiseState none = .resolved := by
  refine ⟨rfl, by decide, rfl, rfl, rfl⟩

/-- C3: whenever loading or invoking the configured error handler fails
(the module is missing, fails to load, is not a valid handler module, or
the handler itself throws), `handleError` returns a response with exactly
the requested status, the requested headers plus content-type text/plain,
and the canonical phrase for the status as its body; the phrase mapping
is the canonical one and is total over the closed non-200 status set (it
is a total function of `ErrorResponseDetails`, constructing the response
without any I/O). -/
theorem handleError_plaintext_fallback (env : Environment)
    (cfg : ServerConfiguration) (request : Request) (details : ErrorResponseDetails)
    (hfail : ∀ h, env.importModule (getErrorModulePath cfg) = .validHandler h →
      h request details.toSuggested = .error ()) :
    handleError env cfg request details =
      { status := details.status
        headers := details.headers ++ [("content-type", "text/plain")]
        body := stringBody (errorMessage details) } ∧
    errorMessage .badRequest = "Bad Request" ∧
    errorMessage .notFound = "Not Found" ∧
    (∀ allow, errorMessage (.methodNotAllowed allow) = "Method Not Allowed") ∧
    errorMessage .notAcceptable = "Not Acceptable" ∧
    errorMessage .internalServerError = "Internal Server Error" ∧
    errorMessage .notImplemented = "Not Implemented" ∧
    details.status ∈ [400, 404, 405, 406, 500, 501] := by
  refine ⟨?_, rfl, rfl, fun _ => rfl, rfl, rfl, rfl, ?_⟩
  · unfold handleError
    cases hmod : env.importModule (getErrorModulePath cfg) with
    | validHandler h =>
      have := hfail h hmod
      simp [this, plainTextFallback]
    | notFound => simp [plainTextFallback]
    | loadError => simp [plainTextFallback]
    | invalidModule => simp [plainTextFallback]
  · cases details <;> simp [ErrorResponseDetails.status, ErrorResponseDetails.toSuggested,
      SuggestedResponseDetails.status]

/-- C3 witness: with no error module installed, a 404 invocation yields
the plain-text Not Found fallback. -/
theorem handleError_plaintext_fallback_witness :
    handleError envNoModules configDefault ⟨"GET", "/missing"⟩ .notFound =
      { status := 404
        headers := [("content-type", "text/plain")]
        body := stringBody "Not Found" } := by
  have h := handleError_plaintext_fallback envNoModules configDefault
    ⟨"GET", "/missing"⟩ .notFound
    (by intro h hmod; exact absurd hmod (by simp [envNoModules]))
  simpa using h.1

/-- C8: a request whose lowercased method is not one of get, head, post,
put, patch, delete is answered through the error fallback chain with
status 501; and the answer depends only on the error-module lookup — any
two environments that agree on the error module path produce the same
response, so neither the handler lookup, the static lookup, nor the
allow probe is consulted. -/
theorem unroutable_method_501 (env env2 : Environment)
    (cfg : ServerConfiguration) (request : Request)
    (h : (["get", "head", "post", "put", "patch", "delete"].contains
      (toLowerStr request.method)) = false) :
    createRequestHandler env cfg request = handleError env cfg request .notImplemented ∧
    (env.importModule (getErrorModulePath cfg) = env2.importModule (getErrorModulePath cfg) →
      createRequestHandler env cfg request = createRequestHandler env2 cfg request) := by
  have hroutable : methodIsRoutable request.method = false := by
    simp only [List.contains, List.elem_eq_mem, List.mem_cons, List.not_mem_nil,
      decide_eq_false_iff_not, not_or] at h
    simp only [methodIsRoutable, lowercasedRoutableMethods, List.contains,
      List.elem_eq_mem, List.mem_cons, List.not_mem_nil,
      decide_eq_false_iff_not, not_or]
    tauto
  constructor
  · simp [createRequestHandler, hroutable]
  · intro hagree
    simp only [createRequestHandler, hroutable, Bool.not_false, if_pos]
    unfold handleError
    rw [hagree]

/-- C8 witness: an OPTIONS request is answered with the 501 error chain,
and probing environments that agree on the (absent) error module produce
the same response. -/
theorem unroutable_method_501_witness :
    createRequestHandler envNoModules configDefault ⟨"OPTIONS", "/"⟩ =
      handleError envNoModules configDefault ⟨"OPTIONS", "/"⟩ .notImplemented ∧
    createRequestHandler envNoModules configDefault ⟨"OPTIONS", "/"⟩ =
      createRequestHandler envStaticAll configDefault ⟨"OPTIONS", "/"⟩ := by
  have h := unroutable_method_501 envNoModules envStaticAll configDefault
    ⟨"OPTIONS", "/"⟩ (by decide)
  exact ⟨h.1, h.2 rfl⟩

/-- C2: on every exit path of the static file server and for every way
the body stream can terminate (completion, error, or consumer
cancellation), the number of handle closes equals the number of handle
opens, and at most one handle is ever opened — no path leaks the handle
and none closes it twice. Moreover for a HEAD request that finds a
regular file the handle is opened and closed before the response is
returned and the response body is empty. -/
theorem static_file_handle_release (env : Environment)
    (cfg : ServerConfiguration) (request : Request) (requestPath : String)
    (ev : StreamEvent) :
    closeCount ((handleRequestForStaticFile env cfg request requestPath).syncHandleOps ++
        (handleRequestForStaticFile env cfg request requestPath).deferredHandleOps ev) =
      openCount ((handleRequestForStaticFile env cfg request requestPath).syncHandleOps ++
        (handleRequestForStaticFile env cfg request requestPath).deferredHandleOps ev) ∧
    openCount ((handleRequestForStaticFile env cfg request requestPath).syncHandleOps ++
        (handleRequestForStaticFile env cfg request requestPath).deferredHandleOps ev) ≤ 1 ∧
    (∀ b, request.method = "HEAD" →
      strEndsWith requestPath cfg.handlerFilenameSuffix = false →
      (requestPath == cfg.errorHandler) = false →
      env.openStat (resolveStaticFilePath env cfg request.method requestPath) = .file b →
      (handleRequestForStaticFile env cfg request requestPath).syncHandleOps =
        [.openH, .closeH] ∧
      (handleRequestForStaticFile env cfg request requestPath).response.body = .empty) := by
  refine ⟨?_, ?_, ?_⟩
  · unfold handleRequestForStaticFile
    split
    · cases ev <;> simp [openCount, closeCount, fileHandleClosingStreamOps,
        List.countP_cons, List.countP_nil]
    · split
      · cases ev <;> simp [openCount, closeCount, fileHandleClosingStreamOps,
          List.countP_cons, List.countP_nil]
      · rcases hstat : env.openStat (resolveStaticFilePath env cfg request.method requestPath)
          with _ | _ | _ | b <;>
          simp only [hstat] <;>
          (try split) <;>
          (cases ev <;> simp [openCount, closeCount, fileHandleClosingStreamOps,
            List.countP_cons, List.countP_nil])
  · unfold handleRequestForStaticFile
    split
    · cases ev <;> simp [openCount, closeCount, fileHandleClosingStreamOps,
        List.countP_cons, List.countP_nil]
    · split
      · cases ev <;> simp [openCount, closeCount, fileHandleClosingStreamOps,
          List.countP_cons, List.countP_nil]
      · rcases hstat : env.openStat (resolveStaticFilePath env cfg request.method requestPath)
          with _ | _ | _ | b <;>
          simp only [hstat] <;>
          (try split) <;>
          (cases ev <;> simp [openCount, closeCount, fileHandleClosingStreamOps,
            List.countP_cons, List.countP_nil])
  · intro b hmethod hsuffix herr hfile
    rw [hmethod] at hfile
    simp [handleRequestForStaticFile, hsuffix, herr, hmethod, hfile]

/-- C2 witness: a HEAD request for an existing file closes the handle
before the response is returned, and for a GET request the counts match
at every stream event. -/
theorem static_file_handle_release_witness :
    (handleRequestForStaticFile envStyleCss configDefault ⟨"HEAD", "/style.css"⟩
        "style.css").syncHandleOps = [.openH, .closeH] ∧
    (handleRequestForStaticFile envStyleCss configDefault ⟨"HEAD", "/style.css"⟩
        "style.css").response.body = .empty := by
  have h := static_file_handle_release envStyleCss configDefault
    ⟨"HEAD", "/style.css"⟩ "style.css" .completed
  exact h.2.2 cssBytes rfl (by decide) (by decide) (by decide)

/-- A routable request whose dynamic handler lookup rejects falls
through to the static file server. -/
theorem createRequestHandler_static (env : Environment)
    (cfg : ServerConfiguration) (request : Request)
    (hroutable : methodIsRoutable request.method = true)
    (hdyn : handleRequestDynamicallyOrReject env cfg request
      (trimSlashes request.pathname) .ok = .error ()) :
    createRequestHandler env cfg request =
      (handleRequestForStaticFile env cfg request (trimSlashes request.pathname)).response := by
  simp [createRequestHandler, hroutable, hdyn]

/-- An environment with no modules, no links and no openable files, but
where a static candidate exists at /pub/post/x for the allow probe. -/
def envPostOnly : Environment :=
  { importModule := fun _ => .notFound
    readlink := fun _ => none
    statExists := fun p => p == "/pub/post/x"
    openStat := fun _ => .openFail
    mimeGetType := fun _ => none }

/-- C1: for a routable request whose dynamic handler lookup rejected,
whose routing key passes the guard clauses, and whose static open or
stat failed, the dispatcher probes, for each of the six routable
methods, the existence of the handler candidate and then of the static
candidate, and answers through the error chain: 405 with the uppercase
comma-space-joined allow list when some method has a candidate,
otherwise 404. HEAD is probed at the candidate paths of GET. -/
theorem allow_probe_405_404 (env : Environment)
    (cfg : ServerConfiguration) (request : Request)
    (hroutable : methodIsRoutable request.method = true)
    (hdyn : handleRequestDynamicallyOrReject env cfg request
      (trimSlashes request.pathname) .ok = .error ())
    (hsuffix : strEndsWith (trimSlashes request.pathname) cfg.handlerFilenameSuffix = false)
    (herr : (trimSlashes request.pathname == cfg.errorHandler) = false)
    (hmiss : ∀ b, env.openStat (resolveStaticFilePath env cfg request.method
      (trimSlashes request.pathname)) ≠ .file b) :
    createRequestHandler env cfg request =
      (if allowedMethods env cfg (trimSlashes request.pathname) = [] then
        handleError env cfg request .notFound
      else
        handleError env cfg request (.methodNotAllowed
          (allowHeaderValue (allowedMethods env cfg (trimSlashes request.pathname))))) ∧
    allowedMethods env cfg (trimSlashes request.pathname) =
      lowercasedRoutableMethods.filter (fun method =>
        env.statExists (getHandlerModulePath cfg method (trimSlashes request.pathname)) ||
          env.statExists (getStaticFilePath cfg method (trimSlashes request.pathname))) ∧
    allowHeaderValue (allowedMethods env cfg (trimSlashes request.pathname)) =
      String.intercalate ", "
        ((allowedMethods env cfg (trimSlashes request.pathname)).map toUpperStr) ∧
    lowercasedRoutableMethods = ["delete", "get", "patch", "post", "put", "head"] ∧
    getHandlerModulePath cfg "head" (trimSlashes request.pathname) =
      getHandlerModulePath cfg "get" (trimSlashes request.pathname) ∧
    getStaticFilePath cfg "head" (trimSlashes request.pathname) =
      getStaticFilePath cfg "get" (trimSlashes request.pathname) := by
  have hhead : toLowerStr "head" = "head" := by decide
  have hget : toLowerStr "get" = "get" := by decide
  refine ⟨?_, rfl, rfl, rfl, by simp [getHandlerModulePath, hhead, hget],
    by simp [getStaticFilePath, hhead, hget]⟩
  rw [createRequestHandler_static env cfg request hroutable hdyn]
  unfold handleRequestForStaticFile
  rcases hstat : env.openStat (resolveStaticFilePath env cfg request.method
      (trimSlashes request.pathname)) with _ | _ | _ | b
  · simp only [hsuffix, herr, hstat, Bool.false_eq_true, if_false]
    unfold staticMissResponse
    rcases hallowed : allowedMethods env cfg (trimSlashes request.pathname) with _ | ⟨m, ms⟩ <;>
      simp
  · simp only [hsuffix, herr, hstat, Bool.false_eq_true, if_false]
    unfold staticMissResponse
    rcases hallowed : allowedMethods env cfg (trimSlashes request.pathname) with _ | ⟨m, ms⟩ <;>
      simp
  · simp only [hsuffix, herr, hstat, Bool.false_eq_true, if_false]
    unfold staticMissResponse
    rcases hallowed : allowedMethods env cfg (trimSlashes request.pathname) with _ | ⟨m, ms⟩ <;>
      simp
  · exact absurd hstat (hmiss b)

/-- C1 witness: a GET request for /x where only a static candidate at
/pub/post/x exists yields the 405 error chain with allow POST. -/
theorem allow_probe_405_404_witness :
    createRequestHandler envPostOnly configDefault ⟨"GET", "/x"⟩ =
      handleError envPostOnly configDefault ⟨"GET", "/x"⟩ (.methodNotAllowed "POST") := by
  have h := (allow_probe_405_404 envPostOnly configDefault ⟨"GET", "/x"⟩
    (by decide) rfl (by decide) (by decide)
    (fun b hb => OpenOutcome.noConfusion hb)).1
  have hallowed : allowedMethods envPostOnly configDefault (trimSlashes "/x") = ["post"] := by
    decide
  have hallow : allowHeaderValue ["post"] = "POST" := by decide
  rw [hallowed, hallow] at h
  simpa using h

/-- The fixture 418 handler response used by the guard counterexample. -/
def handlerResponse418 : Response :=
  { status := 418
    headers := [("custom-header", "custom header value")]
    body := stringBody "This text is from the GET handler" }

/-- An environment where every module path resolves to a valid handler
answering 418. -/
def envValidHandlerEverywhere : Environment :=
  { importModule := fun _ => .validHandler (fun _ _ => .ok handlerResponse418)
    readlink := fun _ => none
    statExists := fun _ => false
    openStat := fun _ => .openFail
    mimeGetType := fun _ => none }

/-- C4 counterexample: the dispatcher does NOT reject a suffix-ending
routing key before attempting handler resolution. With a valid handler
module present at the computed handler candidate (the routing key plus
the URL-encoded suffix), a request whose routing key ends with the
handler suffix is answered by that handler with status 418, not with a
404: the dynamic handler lookup runs first and the guard clauses only
run on the static-file fallback. -/
theorem guard_counterexample :
    strEndsWith (trimSlashes "/x#handler.js") configDefault.handlerFilenameSuffix = true ∧
    createRequestHandler envValidHandlerEverywhere configDefault
      ⟨"GET", "/x#handler.js"⟩ = handlerResponse418 ∧
    handlerResponse418.status ≠ 404 := by
  exact ⟨by decide, rfl, by decide⟩

/-- C4 amended: once the dynamic handler lookup has rejected, a routing
key that ends with the handler filename suffix or equals the configured
error-handler path is rejected as a 404 through the error fallback chain
before static file resolution: no file is ever opened, so the source of
a handler is never served as a static file. -/
theorem guard_rejects_after_dynamic_miss (env : Environment)
    (cfg : ServerConfiguration) (request : Request)
    (hroutable : methodIsRoutable request.method = true)
    (hdyn : handleRequestDynamicallyOrReject env cfg request
      (trimSlashes request.pathname) .ok = .error ())
    (hguard : strEndsWith (trimSlashes request.pathname) cfg.handlerFilenameSuffix = true ∨
      trimSlashes request.pathname = cfg.errorHandler) :
    createRequestHandler env cfg request = handleError env cfg request .notFound ∧
    (handleRequestForStaticFile env cfg request (trimSlashes request.pathname)).syncHandleOps =
      [] := by
  have hstatic := createRequestHandler_static env cfg request hroutable hdyn
  rw [hstatic]
  rcases hguard with hg | hg
  · constructor <;> simp [handleRequestForStaticFile, hg]
  · rcases hends : strEndsWith (trimSlashes request.pathname) cfg.handlerFilenameSuffix with _ | _
    · constructor <;> simp [handleRequestForStaticFile, hends, hg]
    · constructor <;> simp [handleRequestForStaticFile, hends]

/-- C4 witness: with no modules installed, a GET request for a path
ending in the handler suffix is answered with the 404 error chain and no
file handle is opened. -/
theorem guard_rejects_after_dynamic_miss_witness :
    createRequestHandler envNoModules configDefault ⟨"GET", "/x#handler.js"⟩ =
      handleError envNoModules configDefault ⟨"GET", "/x#handler.js"⟩ .notFound ∧
    (handleRequestForStaticFile envNoModules configDefault ⟨"GET", "/x#handler.js"⟩
      (trimSlashes "/x#handler.js")).syncHandleOps = [] := by
  exact guard_rejects_after_dynamic_miss envNoModules configDefault
    ⟨"GET", "/x#handler.js"⟩ (by decide) rfl (Or.inl (by decide))

/-- Every non-200 suggested status is in the closed status set. -/
theorem errorDetails_status_mem (d : ErrorResponseDetails) : d.status ∈ closedStatusSet := by
  cases d <;> simp [ErrorResponseDetails.status, ErrorResponseDetails.toSuggested,
    SuggestedResponseDetails.status, closedStatusSet]

/-- An environment whose valid handlers only ever answer with statuses
in the closed set keeps `handleError` in the closed set. -/
theorem handleError_status_closed (env : Environment) (cfg : ServerConfiguration)
    (request : Request) (d : ErrorResponseDetails)
    (henv : ∀ p h req dd resp, env.importModule p = .validHandler h →
      h req dd = .ok resp → resp.status ∈ closedStatusSet) :
    (handleError env cfg request d).status ∈ closedStatusSet := by
  unfold handleError
  cases hmod : env.importModule (getErrorModulePath cfg) with
  | validHandler h =>
    simp only [hmod]
    cases hres : h request d.toSuggested with
    | ok r =>
      simp only [hres]
      exact henv _ _ _ _ _ hmod hres
    | error e =>
      simp only [hres]
      exact errorDetails_status_mem d
  | notFound => simp only [hmod]; exact errorDetails_status_mem d
  | loadError => simp only [hmod]; exact errorDetails_status_mem d
  | invalidModule => simp only [hmod]; exact errorDetails_status_mem d

/-- The 404/405 disambiguation keeps the status in the closed set under
the same assumption on the environment. -/
theorem staticMissResponse_status_closed (env : Environment) (cfg : ServerConfiguration)
    (request : Request) (requestPath : String)
    (henv : ∀ p h req dd resp, env.importModule p = .validHandler h →
      h req dd = .ok resp → resp.status ∈ closedStatusSet) :
    (staticMissResponse env cfg request requestPath).status ∈ closedStatusSet := by
  simp only [staticMissResponse]
  split
  · exact handleError_status_closed env cfg request _ henv
  · exact handleError_status_closed env cfg request _ henv

/-- The static file server keeps the status in the closed set under the
same assumption on the environment. -/
theorem staticServe_status_closed (env : Environment) (cfg : ServerConfiguration)
    (request : Request) (requestPath : String)
    (henv : ∀ p h req dd resp, env.importModule p = .validHandler h →
      h req dd = .ok resp → resp.status ∈ closedStatusSet) :
    (handleRequestForStaticFile env cfg request requestPath).response.status ∈
      closedStatusSet := by
  unfold handleRequestForStaticFile
  split
  · exact handleError_status_closed env cfg request _ henv
  · split
    · exact handleError_status_closed env cfg request _ henv
    · rcases hstat : env.openStat (resolveStaticFilePath env cfg request.method requestPath)
        with _ | _ | _ | b <;> simp only [hstat]
      · exact staticMissResponse_status_closed env cfg request requestPath henv
      · exact staticMissResponse_status_closed env cfg request requestPath henv
      · exact staticMissResponse_status_closed env cfg request requestPath henv
      · split <;> simp [closedStatusSet]

/-- The fixture 410 error-handler response (the error handler fixture of
the test suite answers 410 Gone with a custom header). -/
def errorHandlerResponse410 : Response :=
  { status := 410
    headers := [("custom-header", "custom header value")]
    body := stringBody "This text is from the error handler" }

/-- An environment with a single valid module: an error handler at the
default error module path answering 410, like the handlers fixture. -/
def envErrorHandler410 : Environment :=
  { importModule := fun p =>
      if p == "/pub/%23error.js" then .validHandler (fun _ _ => .ok errorHandlerResponse410)
      else .notFound
    readlink := fun _ => none
    statExists := fun _ => false
    openStat := fun _ => .openFail
    mimeGetType := fun _ => none }

/-- C5 counterexample: the response delivered to the client is NOT
always drawn from the closed status set. With the 410 error-handler
fixture installed, a GET for a missing path is answered by the error
handler with status 410, which is outside the closed set — handler and
error-handler responses pass through unmodified. -/
theorem delivered_status_outside_closed_set :
    createRequestHandler envErrorHandler410 configDefault ⟨"GET", "/missing"⟩ =
      errorHandlerResponse410 ∧
    errorHandlerResponse410.status = 410 ∧
    410 ∉ closedStatusSet := by
  exact ⟨rfl, rfl, by decide⟩

/-- C5 amended: the statuses the dispatcher constructs itself are always
drawn from the closed set, and handler responses pass through
unmodified; hence whenever every installed handler module (the error
handler included) only returns statuses in the closed set, the response
delivered to the client has a status in the closed set. -/
theorem dispatcher_status_closed (env : Environment)
    (cfg : ServerConfiguration) (request : Request)
    (henv : ∀ p h req dd resp, env.importModule p = .validHandler h →
      h req dd = .ok resp → resp.status ∈ closedStatusSet) :
    (createRequestHandler env cfg request).status ∈ closedStatusSet := by
  unfold createRequestHandler
  split
  · exact handleError_status_closed env cfg request _ henv
  · cases hdyn : handleRequestDynamicallyOrReject env cfg request
      (trimSlashes request.pathname) .ok with
    | ok r =>
      simp only [hdyn]
      unfold handleRequestDynamicallyOrReject at hdyn
      cases hmod : env.importModule (getHandlerModulePath cfg request.method
          (trimSlashes request.pathname)) with
      | validHandler h =>
        simp only [hmod] at hdyn
        exact henv _ _ _ _ _ hmod hdyn
      | notFound => simp only [hmod] at hdyn; exact Except.noConfusion hdyn
      | loadError => simp only [hmod] at hdyn; exact Except.noConfusion hdyn
      | invalidModule => simp only [hmod] at hdyn; exact Except.noConfusion hdyn
    | error e =>
      simp only [hdyn]
      exact staticServe_status_closed env cfg request (trimSlashes request.pathname) henv

/-- C5 witness: with no modules installed, a GET for a missing path is
delivered with status 404, inside the closed set. -/
theorem dispatcher_status_closed_witness :
    (createRequestHandler envNoModules configDefault ⟨"GET", "/missing"⟩).status ∈
      closedStatusSet := by
  exact dispatcher_status_closed envNoModules configDefault ⟨"GET", "/missing"⟩
    (fun p h req dd resp hmod _ => ModuleOutcome.noConfusion hmod)

/-- An environment with no modules where every open finds a regular
file. -/
def envFileEverywhere : Environment :=
  { importModule := fun _ => .notFound
    readlink := fun _ => none
    statExists := fun _ => false
    openStat := fun _ => .file (stringUTF8 "file-bytes")
    mimeGetType := fun _ => none }

/-- C6 counterexample: a path with no handler anywhere and an existing
regular file at its GET static candidate is NOT always answered 200 —
when the routing key ends with the handler filename suffix the guard
clause rejects it as 404 without serving the file. -/
theorem static_success_counterexample :
    envFileEverywhere.importModule (getHandlerModulePath configDefault "GET"
      (trimSlashes "/x#handler.js")) = .notFound ∧
    envFileEverywhere.openStat (getStaticFilePath configDefault "GET"
      (trimSlashes "/x#handler.js")) = .file (stringUTF8 "file-bytes") ∧
    (createRequestHandler envFileEverywhere configDefault
      ⟨"GET", "/x#handler.js"⟩).status = 404 ∧
    (404 : Nat) ≠ 200 := by
  exact ⟨rfl, rfl, rfl, by decide⟩

/-- C6 amended: for every path with no handler, a routing key passing
the guard clauses, and an existing regular file at the resolved GET
static candidate, a GET request is answered 200 with the one-year
cache-control header and the file bytes as its streamed body, and a HEAD
request is answered 200 with the same headers and an empty body; a
candidate that is not a regular file is rejected and handled exactly
like a missing static file. -/
theorem static_get_head_success (env : Environment)
    (cfg : ServerConfiguration) (request : Request) (b : List UInt8)
    (hdyn : handleRequestDynamicallyOrReject env cfg request
      (trimSlashes request.pathname) .ok = .error ())
    (hsuffix : strEndsWith (trimSlashes request.pathname) cfg.handlerFilenameSuffix = false)
    (herr : (trimSlashes request.pathname == cfg.errorHandler) = false) :
    (request.method = "GET" →
      env.openStat (resolveStaticFilePath env cfg "GET" (trimSlashes request.pathname)) =
        .file b →
      createRequestHandler env cfg request =
        { status := 200
          headers := staticSuccessHeaders (env.mimeGetType
            (resolveStaticFilePath env cfg "GET" (trimSlashes request.pathname)))
          body := .fileHandleClosingStream b }) ∧
    (request.method = "HEAD" →
      env.openStat (resolveStaticFilePath env cfg "HEAD" (trimSlashes request.pathname)) =
        .file b →
      createRequestHandler env cfg request =
        { status := 200
          headers := staticSuccessHeaders (env.mimeGetType
            (resolveStaticFilePath env cfg "HEAD" (trimSlashes request.pathname)))
          body := .empty }) ∧
    (∀ mimeType, ("cache-control", "max-age=31536000") ∈ staticSuccessHeaders mimeType) ∧
    (env.openStat (resolveStaticFilePath env cfg request.method
        (trimSlashes request.pathname)) = .notAFile →
      (handleRequestForStaticFile env cfg request (trimSlashes request.pathname)).response =
        staticMissResponse env cfg request (trimSlashes request.pathname)) := by
  refine ⟨?_, ?_, ?_, ?_⟩
  · intro hm hfile
    have hroutable : methodIsRoutable request.method = true := by rw [hm]; decide
    rw [createRequestHandler_static env cfg request hroutable hdyn]
    unfold handleRequestForStaticFile
    simp only [hsuffix, herr, hm, hfile, Bool.false_eq_true, if_false]
    simp
  · intro hm hfile
    have hroutable : methodIsRoutable request.method = true := by rw [hm]; decide
    rw [createRequestHandler_static env cfg request hroutable hdyn]
    unfold handleRequestForStaticFile
    simp only [hsuffix, herr, hm, hfile, Bool.false_eq_true, if_false]
    simp
  · intro mimeType
    cases mimeType <;> simp [staticSuccessHeaders]
  · intro hnot
    unfold handleRequestForStaticFile
    simp only [hsuffix, herr, hnot, Bool.false_eq_true, if_false]

/-- C6 witness: GET and HEAD for /style.css with a regular file at
/pub/get/style.css are answered 200 with cache-control and content-type
headers, the file bytes for GET, and an empty body for HEAD. -/
theorem static_get_head_success_witness :
    createRequestHandler envStyleCss configDefault ⟨"GET", "/style.css"⟩ =
      { status := 200
        headers := [("cache-control", "max-age=31536000"), ("content-type", "text/css")]
        body := .fileHandleClosingStream cssBytes } ∧
    createRequestHandler envStyleCss configDefault ⟨"HEAD", "/style.css"⟩ =
      { status := 200
        headers := [("cache-control", "max-age=31536000"), ("content-type", "text/css")]
        body := .empty } := by
  constructor
  · exact (static_get_head_success envStyleCss configDefault ⟨"GET", "/style.css"⟩
      cssBytes rfl (by decide) (by decide)).1 rfl rfl
  · exact (static_get_head_success envStyleCss configDefault ⟨"HEAD", "/style.css"⟩
      cssBytes rfl (by decide) (by decide)).2.1 rfl rfl

/-- C10: a successful static response carries a content-type header
exactly when a MIME type was derived from the resolved (post-symlink)
path; when none was derived, the headers are exactly the cache-control
header and the status is 200. -/
theorem static_content_type_iff_mime (env : Environment)
    (cfg : ServerConfiguration) (request : Request) (requestPath : String)
    (b : List UInt8)
    (hsuffix : strEndsWith requestPath cfg.handlerFilenameSuffix = false)
    (herr : (requestPath == cfg.errorHandler) = false)
    (hfile : env.openStat (resolveStaticFilePath env cfg request.method requestPath) =
      .file b) :
    ((handleRequestForStaticFile env cfg request requestPath).response.headers.any
        (fun kv => kv.1 == "content-type")) =
      (env.mimeGetType (resolveStaticFilePath env cfg request.method requestPath)).isSome ∧
    (env.mimeGetType (resolveStaticFilePath env cfg request.method requestPath) = none →
      (handleRequestForStaticFile env cfg request requestPath).response.headers =
        [("cache-control", "max-age=31536000")]) ∧
    (∀ t, env.mimeGetType (resolveStaticFilePath env cfg request.method requestPath) = some t →
      (handleRequestForStaticFile env cfg request requestPath).response.headers =
        [("cache-control", "max-age=31536000"), ("content-type", t)]) ∧
    (handleRequestForStaticFile env cfg request requestPath).response.status = 200 := by
  have hresp : (handleRequestForStaticFile env cfg request requestPath).response.headers =
      staticSuccessHeaders (env.mimeGetType
        (resolveStaticFilePath env cfg request.method requestPath)) ∧
      (handleRequestForStaticFile env cfg request requestPath).response.status = 200 := by
    unfold handleRequestForStaticFile
    simp only [hsuffix, herr, hfile, Bool.false_eq_true, if_false]
    split <;> simp
  obtain ⟨hh, hs⟩ := hresp
  refine ⟨?_, ?_, ?_, hs⟩
  · rw [hh]
    cases hm : env.mimeGetType (resolveStaticFilePath env cfg request.method requestPath) <;>
      simp [staticSuccessHeaders]
  · intro hm
    rw [hh, hm]
    rfl
  · intro t hm
    rw [hh, hm]
    rfl

/-- C10 witness: with no derivable MIME type the static response for
/data carries only the cache-control header. -/
theorem static_content_type_iff_mime_witness :
    (handleRequestForStaticFile envFileEverywhere configDefault ⟨"GET", "/data"⟩
        "data").response.headers = [("cache-control", "max-age=31536000")] := by
  exact (static_content_type_iff_mime envFileEverywhere configDefault ⟨"GET", "/data"⟩
    "data" (stringUTF8 "file-bytes") (by decide) (by decide) rfl).2.1 rfl

end Loom
